import Mathlib

/-!
Verification of the Easy Read Toolkit capture-to-storage pipeline.

The definitions below are a shallow embedding of the repository code:
the backend document store (`backend/server.js`), the frontend API client
(`frontend/lib/api.js`), and the capture screens (camera/scan, PDF upload,
URL import, documents list). JavaScript objects passed to the API client
are modelled as association lists so that key mismatches are visible;
numbers are Nat; fallible calls return `Except` or carry explicit
success/failure flags.
-/

/-- JavaScript `s.trim()`: strip leading and trailing whitespace
(implemented structurally over the character list so proofs and concrete
evaluation both reduce). -/
def jsTrim (s : String) : String :=
  (((s.toList.dropWhile Char.isWhitespace).reverse.dropWhile
      Char.isWhitespace).reverse).asString

/-! ## Document store data model (backend/server.js) -/

/-- A row of the `documents` table as stored and returned by the server.
Optional columns are `Option String` (`none` = SQL NULL). -/
structure StoredDocument where
  id : String
  userId : String
  title : String
  content : String
  type : String
  sourceTag : Option String
  fileName : Option String
  fileUrl : Option String
  createdAt : String
deriving Repr, DecidableEq

/-- The JSON body of a `POST /api/documents` request: each field is `none`
when the key is absent from the JSON object. -/
structure DocumentBody where
  title : Option String
  content : Option String
  type : Option String
  sourceTag : Option String
  fileName : Option String
  fileUrl : Option String
deriving Repr, DecidableEq

/-- A request body accepted by `documentSchema.parse`: the three required
string fields are present and validated. -/
structure ParsedDocument where
  title : String
  content : String
  type : String
  sourceTag : Option String
  fileName : Option String
  fileUrl : Option String
deriving Repr, DecidableEq

/-- JavaScript `v || null` on an optional string: `undefined` and the empty
string are both falsy and become NULL. -/
def jsOrNull (o : Option String) : Option String :=
  match o with
  | some s => if s = "" then none else some s
  | none => none

/-- `documentSchema` (zod) from server.js: `title` 1..500 chars, `content`
at least 1 char, `type` at least 1 char, the rest optional. A missing or
failing field raises a validation error. -/
def documentSchemaParse (b : DocumentBody) : Except String ParsedDocument :=
  match b.title, b.content, b.type with
  | some t, some c, some ty =>
    if t.length < 1 then
      .error "title: String must contain at least 1 character"
    else if 500 < t.length then
      .error "title: String must contain at most 500 characters"
    else if c.length < 1 then
      .error "content: String must contain at least 1 character"
    else if ty.length < 1 then
      .error "type: String must contain at least 1 character"
    else
      .ok { title := t, content := c, type := ty, sourceTag := b.sourceTag,
            fileName := b.fileName, fileUrl := b.fileUrl }
  | _, _, _ => .error "Required"

/-- `createDocument(userId, payload)` from server.js: assigns `id` and
`createdAt` (passed here explicitly since they are generated) and stores
the payload, with `|| null` applied to the optional columns. -/
def createDocument (userId id createdAt : String) (p : ParsedDocument) :
    StoredDocument :=
  { id := id, userId := userId, title := p.title, content := p.content,
    type := p.type, sourceTag := jsOrNull p.sourceTag,
    fileName := jsOrNull p.fileName, fileUrl := jsOrNull p.fileUrl,
    createdAt := createdAt }

/-- HTTP result of `POST /api/documents`: 201 with the stored document, or
400 with the validation message. -/
structure CreateResult where
  status : Nat
  document : Option StoredDocument
  message : Option String
deriving Repr, DecidableEq

/-- The `POST /api/documents` route handler (after `authenticate` resolved
the owner): parse the body with `documentSchema`, then create. -/
def postDocuments (userId id createdAt : String) (b : DocumentBody) :
    CreateResult :=
  match documentSchemaParse b with
  | .ok p =>
    { status := 201, document := some (createDocument userId id createdAt p),
      message := none }
  | .error e => { status := 400, document := none, message := some e }

/-- `getDocumentById(id)`: first row of `SELECT * FROM documents WHERE id = ?`. -/
def getDocumentById (db : List StoredDocument) (docId : String) :
    Option StoredDocument :=
  db.find? (fun d => d.id == docId)

/-- `deleteDocumentForUser(userId, docId)` from server.js: returns `false`
leaving the table unchanged unless the document exists and its `userId`
matches; otherwise deletes the row and returns `true`. -/
def deleteDocumentForUser (db : List StoredDocument) (userId docId : String) :
    Bool × List StoredDocument :=
  match getDocumentById db docId with
  | none => (false, db)
  | some doc =>
    if doc.userId = userId then (true, db.filter (fun d => d.id != docId))
    else (false, db)

/-- HTTP result of `DELETE /api/documents/:id`. -/
structure DeleteResult where
  status : Nat
  message : Option String
deriving Repr, DecidableEq

/-- The `DELETE /api/documents/:id` route handler (after `authenticate`):
404 "Document not found" when `deleteDocumentForUser` refuses. -/
def deleteDocumentsRoute (db : List StoredDocument) (userId docId : String) :
    DeleteResult × List StoredDocument :=
  let r := deleteDocumentForUser db userId docId
  if r.1 then ({ status := 200, message := none }, r.2)
  else ({ status := 404, message := some "Document not found" }, r.2)

/-! ## Frontend API client (frontend/lib/api.js) -/

/-- A JSON object literal, keyed by string. Key order is the literal order;
`jget` is property lookup (`none` when the key is absent). -/
def jget (o : List (String × String)) (k : String) : Option String :=
  (o.find? (fun p => p.1 == k)).map (fun p => p.2)

/-- `createUserDocument(authToken, {...})` from api.js destructures exactly
the keys `title, content, type, sourceTag, fileName, fileUrl` from its
argument object and forwards them as the request body; any other key of the
argument is dropped, and an absent key becomes an absent body field
(`JSON.stringify` omits `undefined`). -/
def createUserDocumentBody (o : List (String × String)) : DocumentBody :=
  { title := jget o "title", content := jget o "content",
    type := jget o "type", sourceTag := jget o "sourceTag",
    fileName := jget o "fileName", fileUrl := jget o "fileUrl" }

/-- The object literal PDFUploadScreen.saveEasyReadDocument passes to
`createUserDocument`: note the rendered PDF path travels under the key
`url`, not `fileUrl`. -/
def pdfUploadSavePayload (title text fileName dest : String) :
    List (String × String) :=
  [("title", title), ("content", text), ("type", "pdf"),
   ("sourceTag", "upload"), ("fileName", fileName), ("url", dest)]

/-- The object literal UrlImportScreen.saveEasyReadDocument (settings.tsx)
passes to `createUserDocument`: the rendered PDF path again travels under
the key `url`. -/
def urlImportSavePayload (title text fileName dest : String) :
    List (String × String) :=
  [("title", title), ("content", text), ("type", "web"),
   ("sourceTag", "url"), ("fileName", fileName), ("url", dest)]

/-! ## Simplifier: server `/ai/rewrite` and client `rewriteEasyRead` -/

/-- Outcome of the backend fetch to the upstream rewrite model:
either a non-2xx upstream response with its status and body text, or a
2xx response whose parsed `choices[0].message.content` is `content`
(`none` when the chain of optional accesses yields nothing usable). -/
inductive UpstreamResult where
  | httpError (status : Nat) (detail : String)
  | ok (content : Option String)
deriving Repr, DecidableEq

/-- The JSON response of `POST /ai/rewrite` with its HTTP status. -/
structure RewriteResponse where
  status : Nat
  error : Option String
  detail : Option String
  easyRead : Option String
deriving Repr, DecidableEq

/-- The `POST /ai/rewrite` route handler from server.js: zod-validate the
sentence, forward to the upstream model, surface a non-2xx upstream
response as 502 with `error = "AI service failed (status)"` plus the
upstream body as `detail`, and otherwise answer 200 with
`easyRead = content trimmed, or "" when no usable content`. -/
def aiRewriteRoute (sentence : String) (upstream : UpstreamResult) :
    RewriteResponse :=
  if sentence.length < 1 then
    { status := 400,
      error := some "sentence: String must contain at least 1 character",
      detail := none, easyRead := none }
  else if 15000000 < sentence.length then
    { status := 400,
      error := some "sentence: String must contain at most 15000000 characters",
      detail := none, easyRead := none }
  else
    match upstream with
    | .httpError st detail =>
      { status := 502,
        error := some ("AI service failed (" ++ toString st ++ ")"),
        detail := some detail, easyRead := none }
    | .ok content =>
      { status := 200, error := none, detail := none,
        easyRead := some ((content.map jsTrim).getD "") }

/-- What the client `fetch` of `rewriteEasyRead` yields: a network-level
failure, or a response from the backend. -/
inductive FetchOutcome where
  | networkError
  | response (r : RewriteResponse)
deriving Repr, DecidableEq

/-- `rewriteEasyRead(sentence)` from api.js. The inner
`throw new Error("AI rewrite failed (status): ...")` for a non-ok response
sits inside the same `try` block as the fetch, so the enclosing `catch`
intercepts it and rethrows the generic message; a network failure takes
the same path. An ok response returns `data.easyRead || ""`. -/
def rewriteEasyRead (f : FetchOutcome) : Except String String :=
  match f with
  | .networkError =>
    .error "Failed to reach the AI service. Please try again."
  | .response r =>
    if 200 ≤ r.status ∧ r.status < 300 then .ok (r.easyRead.getD "")
    else .error "Failed to reach the AI service. Please try again."

/-! ## Renderer markup escaping (capture screens and DocumentsScreen)

A JavaScript `s.replace(/c/g, repl)` with a single-character pattern maps
every occurrence of `c` to `repl` in one pass; text is modelled as
`List Char` so the passes compose exactly as the chained `.replace` calls
do in the source. -/

/-- One global single-character replace pass. -/
def replaceAllChar (c : Char) (repl : List Char) : List Char → List Char
  | [] => []
  | a :: as => (if a = c then repl else [a]) ++ replaceAllChar c repl as

/-- `safeHtml` as computed in saveEasyReadDocument (camera, PDF upload and
URL import screens alike): escape ampersand, then angle brackets, then turn
newlines into break tags. -/
def safeHtml (text : List Char) : List Char :=
  replaceAllChar '\n' "<br/>".toList
    (replaceAllChar '>' "&gt;".toList
      (replaceAllChar '<' "&lt;".toList
        (replaceAllChar '&' "&amp;".toList text)))

/-- The title embedding used by the capture screens:
`title.replace(/</g, "&lt;")` — only the opening angle bracket is
escaped. -/
def escapeTitle (title : List Char) : List Char :=
  replaceAllChar '<' "&lt;".toList title

/-- `escapeHtml` from DocumentsScreen: escape ampersand then both angle
brackets (no newline handling; callers append the break-tag pass). -/
def escapeHtml (s : List Char) : List Char :=
  replaceAllChar '>' "&gt;".toList
    (replaceAllChar '<' "&lt;".toList
      (replaceAllChar '&' "&amp;".toList s))

/-! ## Reader preferences (hooks/useReaderPreferences.tsx) -/

/-- Stored reader preferences; `lineHeight` and `textAlignment` are the
option labels from the settings UI. -/
structure ReaderPrefs where
  fontSize : Nat
  lineHeight : String
  textAlignment : String
deriving Repr, DecidableEq

/-- `Math.round(fontSize * factor)` for the three line-height factors
(1.2, 1.5, 1.8), computed exactly over Nat: rounding half away from zero
as JavaScript does. -/
def lineHeightPxOf (prefs : ReaderPrefs) : Nat :=
  if prefs.lineHeight = "Compact" then (prefs.fontSize * 12 + 5) / 10
  else if prefs.lineHeight = "Spacious" then (prefs.fontSize * 18 + 5) / 10
  else (prefs.fontSize * 15 + 5) / 10

/-- CSS text-align derived from the preference label (default left). -/
def textAlignOf (prefs : ReaderPrefs) : String :=
  if prefs.textAlignment = "Center" then "center"
  else if prefs.textAlignment = "Justify" then "justify"
  else "left"

/-- `useReaderTextStyle` computes the ready-to-use text style: the font
size, the derived pixel line height, and the CSS alignment. -/
structure ReaderTextStyle where
  fontSize : Nat
  lineHeight : Nat
  textAlign : String
deriving Repr, DecidableEq

/-- The style object returned by `useReaderTextStyle` for given prefs. -/
def readerTextStyle (prefs : ReaderPrefs) : ReaderTextStyle :=
  { fontSize := prefs.fontSize, lineHeight := lineHeightPxOf prefs,
    textAlign := textAlignOf prefs }

/-! ## Documents screen (part of part_011): open, list, delete -/

/-- A document as the DocumentsScreen holds it after mapping the API rows
(`date := createdAt`). -/
structure ClientDocument where
  id : String
  title : String
  content : String
  type : String
  date : String
  fileName : Option String
  sourceTag : Option String
  fileUrl : Option String
deriving Repr, DecidableEq

/-- The row mapping in DocumentsScreen.loadDocuments. -/
def mapApiDoc (d : StoredDocument) : ClientDocument :=
  { id := d.id, title := d.title, content := d.content, type := d.type,
    date := d.createdAt, fileName := d.fileName, sourceTag := d.sourceTag,
    fileUrl := d.fileUrl }

/-- `loadDocuments`: with no auth token the document list is cleared and
the fetch is never attempted (second component: whether the Store list
call was issued). -/
def loadDocuments (token : Option String) (fetched : List StoredDocument) :
    List ClientDocument × Bool :=
  match token with
  | none => ([], false)
  | some _ => (fetched.map mapApiDoc, true)

/-- `performDelete`: with no auth token an error alert is raised and the
Store delete call is never attempted; otherwise the call is issued and on
success the row leaves the visible list. Result: remaining list, whether
the delete call was attempted, surfaced alert. -/
def performDelete (token : Option String) (serverOk : Bool)
    (docs : List ClientDocument) (targetId : String) :
    List ClientDocument × Bool × Option String :=
  match token with
  | none =>
    (docs, false, some "You need to be signed in to delete documents.")
  | some _ =>
    if serverOk then (docs.filter (fun d => d.id != targetId), true, none)
    else (docs, true, some "Delete Failed")

/-- The HTML rebuilt by DocumentsScreen.openPdfFromDoc from a stored
document body and the current reader text style (brace characters of
the embedded CSS written as escapes). -/
def regenHtml (content : String) (st : ReaderTextStyle) : String :=
  "<html><head><meta charset=\"utf-8\" /><style>body \x7b " ++
  "font-family: system-ui, -apple-system, Roboto, Arial, sans-serif; " ++
  "padding: 24px; font-size: " ++ toString st.fontSize ++ "px; " ++
  "line-height: " ++ toString st.lineHeight ++ "px; " ++
  "text-align: " ++ st.textAlign ++ "; \x7d " ++
  "h1 \x7b margin: 0 0 16px; font-size: " ++ toString (st.fontSize + 4) ++
  "px; \x7d p \x7b white-space: pre-wrap; margin-top: 12px; \x7d" ++
  "</style></head><body><h1>Easy Read</h1><p>" ++
  (replaceAllChar '\n' "<br/>".toList (escapeHtml content.toList)).asString ++
  "</p></body></html>"

/-- Outcome of opening a stored PDF document. -/
inductive OpenPdfResult where
  | opened (path : String) (title : String)
  | failed (message : String)
deriving Repr, DecidableEq

/-- `openPdfFromDoc(doc)`: use the stored `fileUrl` only when it resolves
on this device (`fileExists`); otherwise regenerate a fresh PDF from the
document content and the current reader preferences (`render` abstracts
`printToFileAsync`, mapping the generated HTML to the produced file path)
and open that; fail only when the content itself is empty. -/
def openPdfFromDoc (fileExists : String → Bool) (render : String → String)
    (st : ReaderTextStyle) (doc : ClientDocument) : OpenPdfResult :=
  let localPath : Option String :=
    match doc.fileUrl with
    | some p => if fileExists p then some p else none
    | none => none
  match localPath with
  | some p => .opened p doc.title
  | none =>
    if doc.content = "" then
      .failed "This PDF file is not available on this device."
    else .opened (render (regenHtml doc.content st)) doc.title

/-- `isPdfDoc` from DocumentsScreen. -/
def isPdfDoc (doc : ClientDocument) : Bool :=
  doc.type == "pdf" || (doc.fileName.getD "").toLower.endsWith ".pdf"

/-! ## Camera/scan capture session (CameraScreen in part_011)

The screen state relevant to the Easy Read save flow; `localDocs` counts
document records written to the device AsyncStorage list (the camera save
path persists locally and issues no Store call at all). -/

structure CameraSession where
  easyRead : String
  documentTitle : String
  easyHasSaved : Bool
  leaveGuardVisible : Bool
  navigatedBack : Bool
  localDocs : Nat
  alert : Option String
deriving Repr, DecidableEq

/-- CameraScreen.saveEasyReadDocument(leaveAfter): trim the Easy Read
text and return silently when empty; otherwise render the PDF and append
a record to the AsyncStorage document list — with no token lookup and no
Store call — then mark saved and, when leaving, dismiss the guard and
navigate back. `writeOk` abstracts whether the render/write pipeline
throws (on a throw the catch alerts and nothing else changes). -/
def cameraSaveEasyReadDocument (writeOk leaveAfter : Bool)
    (s : CameraSession) : CameraSession :=
  if jsTrim s.easyRead = "" then s
  else if writeOk then
    let s' := { s with localDocs := s.localDocs + 1, easyHasSaved := true }
    if leaveAfter then
      { s' with leaveGuardVisible := false, navigatedBack := true }
    else s'
  else { s with alert := some "Failed to save" }

/-- CameraScreen.handleBack: an unsaved Easy Read result intercepts the
navigation by opening the leave guard; otherwise navigate back. -/
def cameraHandleBack (s : CameraSession) : CameraSession :=
  if s.easyRead ≠ "" ∧ s.easyHasSaved = false then
    { s with leaveGuardVisible := true }
  else { s with navigatedBack := true }

/-- The two buttons of the leave-guard modal. -/
def leaveGuardOptions : List String :=
  ["Leave without Saving", "Save & Leave"]

/-- Guard button one: dismiss the guard and navigate back, saving
nothing. -/
def cameraGuardLeaveWithoutSaving (s : CameraSession) : CameraSession :=
  { s with leaveGuardVisible := false, navigatedBack := true }

/-- Guard button two: run the save with `leaveAfter = true`. -/
def cameraGuardSaveAndLeave (writeOk : Bool) (s : CameraSession) :
    CameraSession :=
  cameraSaveEasyReadDocument writeOk true s

/-! ## PDF upload / URL import capture session (PDFUploadScreen in
part_011; UrlImportScreen in settings.tsx is structurally identical for
the save flow)

`createAttempts` counts Store create calls issued; `storedDocs` counts
documents the Store actually persisted. -/

structure CaptureSession where
  easyRead : String
  easyHasSaved : Bool
  leaveGuardVisible : Bool
  navigatedBack : Bool
  createAttempts : Nat
  storedDocs : Nat
  alert : Option String
deriving Repr, DecidableEq

/-- The environment of one save call: the auth token found on the device
(if any) and whether the issued Store create call succeeds. -/
structure SaveEnv where
  token : Option String
  storeOk : Bool
deriving Repr, DecidableEq

/-- PDFUploadScreen.saveEasyReadDocument(leaveAfter): trim and return
silently when empty; render the PDF; then require a token — without one,
alert "Not signed in" and never issue the Store call; with one, call
`createUserDocument`, and on success mark saved and (when leaving)
dismiss the guard and navigate back; a throw from the call is caught and
alerted with the session otherwise unchanged. -/
def pdfSaveEasyReadDocument (env : SaveEnv) (leaveAfter : Bool)
    (s : CaptureSession) : CaptureSession :=
  if jsTrim s.easyRead = "" then s
  else
    match env.token with
    | none => { s with alert := some "Not signed in" }
    | some _ =>
      let s' := { s with createAttempts := s.createAttempts + 1 }
      if env.storeOk then
        let s'' := { s' with storedDocs := s'.storedDocs + 1,
                             easyHasSaved := true }
        if leaveAfter then
          { s'' with leaveGuardVisible := false, navigatedBack := true }
        else s''
      else { s' with alert := some "Failed to save Easy Read PDF" }

/-- PDFUploadScreen.handleBack (same shape as the camera screen). -/
def pdfHandleBack (s : CaptureSession) : CaptureSession :=
  if s.easyRead ≠ "" ∧ s.easyHasSaved = false then
    { s with leaveGuardVisible := true }
  else { s with navigatedBack := true }

/-- `saveDisabled` from the screen: no trimmed Easy Read text, or already
saved. -/
def saveDisabled (s : CaptureSession) : Bool :=
  jsTrim s.easyRead == "" || s.easyHasSaved

/-- The label of the modal save button: an already-saved indicator after
a save. -/
def saveButtonLabel (s : CaptureSession) : String :=
  if s.easyHasSaved then "Saved" else "Save"

/-- Pressing the modal save button: the button is disabled and its
handler additionally re-checks `saveDisabled`, so a disabled press
changes nothing. -/
def pressSaveButton (env : SaveEnv) (s : CaptureSession) : CaptureSession :=
  if saveDisabled s then s else pdfSaveEasyReadDocument env false s

/-- Guard button two on this screen. -/
def pdfGuardSaveAndLeave (env : SaveEnv) (s : CaptureSession) :
    CaptureSession :=
  pdfSaveEasyReadDocument env true s

/-- Guard button one on this screen. -/
def pdfGuardLeaveWithoutSaving (s : CaptureSession) : CaptureSession :=
  { s with leaveGuardVisible := false, navigatedBack := true }

/-! ## URL import extraction retry loop (UrlImportScreen.onMessage) -/

/-- The screen state the retry logic touches. -/
structure UrlState where
  extracted : String
  documentTitle : String
  retryCount : Nat
  loading : Bool
deriving Repr, DecidableEq

/-- One `onMessage` handling of a successful extraction result: store the
text and title, then — when the text is shorter than 100 characters and
fewer than 2 retries have run — schedule one more extraction after the
fixed delay (second component: whether a retry was scheduled); otherwise
reset the counter and surface the result. -/
def urlOnMessageOk (s : UrlState) (text pageTitle hostname : String) :
    UrlState × Bool :=
  let s1 := { s with loading := false, extracted := text,
                     documentTitle :=
                       if pageTitle ≠ "" then pageTitle else hostname }
  if text.length < 100 ∧ s1.retryCount < 2 then
    ({ s1 with retryCount := s1.retryCount + 1, loading := true }, true)
  else ({ s1 with retryCount := 0 }, false)

/-- The whole extraction loop driven by `onMessage`: `results i` is the
text the i-th extraction run yields. Returns the total number of runs
performed and the text finally surfaced. Each retry increments the
counter, and the loop re-runs only while the result is short and the
counter is below 2 — the structural bound of the source retry policy. -/
def extractionLoop (results : Nat → String) (i rc : Nat) : Nat × String :=
  if h : (results i).length < 100 ∧ rc < 2 then
    let rest := extractionLoop results (i + 1) (rc + 1)
    (rest.1 + 1, rest.2)
  else (1, results i)
termination_by 2 - rc
decreasing_by omega

/-- A full extraction session starts with `retryCount = 0`. -/
def urlExtraction (results : Nat → String) : Nat × String :=
  extractionLoop results 0 0

/-! ## Helper lemmas -/

/-- Characters of a replace pass come from the replacement or the input. -/
lemma mem_replaceAllChar {x c : Char} {repl : List Char} :
    ∀ {s : List Char}, x ∈ replaceAllChar c repl s → x ∈ repl ∨ x ∈ s := by
  intro s
  induction s with
  | nil => intro hx; simp [replaceAllChar] at hx
  | cons a as ih =>
    intro hx
    simp only [replaceAllChar, List.mem_append] at hx
    rcases hx with hx | hx
    · by_cases hac : a = c
      · rw [if_pos hac] at hx
        exact Or.inl hx
      · rw [if_neg hac] at hx
        simp only [List.mem_singleton] at hx
        subst hx
        exact Or.inr (by simp)
    · rcases ih hx with h | h
      · exact Or.inl h
      · exact Or.inr (by simp [h])

/-- After replacing every `c` with a `c`-free replacement, no `c`
remains. -/
lemma not_mem_replaceAllChar {c : Char} {repl : List Char}
    (hcr : c ∉ repl) : ∀ {s : List Char}, c ∉ replaceAllChar c repl s := by
  intro s
  induction s with
  | nil => simp [replaceAllChar]
  | cons a as ih =>
    simp only [replaceAllChar, List.mem_append]
    rintro (h | h)
    · by_cases hac : a = c
      · rw [if_pos hac] at h
        exact hcr h
      · rw [if_neg hac] at h
        simp only [List.mem_singleton] at h
        exact hac h.symm
    · exact ih h

/-- Replacing a character that does not occur is the identity. -/
lemma replaceAllChar_eq_of_not_mem {c : Char} {repl s : List Char}
    (h : c ∉ s) : replaceAllChar c repl s = s := by
  induction s with
  | nil => rfl
  | cons a as ih =>
    simp only [List.mem_cons, not_or] at h
    simp [replaceAllChar, Ne.symm h.1, ih h.2]

/-- `safeHtml` is `escapeHtml` followed by the newline-to-break pass. -/
lemma safeHtml_eq (t : List Char) :
    safeHtml t = replaceAllChar '\n' "<br/>".toList (escapeHtml t) := rfl

/-- A body accepted by the zod schema has validated fields, and the
optional `fileUrl` passes through untouched. -/
lemma documentSchemaParse_ok {b : DocumentBody} {p : ParsedDocument}
    (h : documentSchemaParse b = .ok p) :
    0 < p.content.length ∧ 0 < p.title.length ∧ p.title.length ≤ 500 ∧
    0 < p.type.length ∧ p.fileUrl = b.fileUrl := by
  unfold documentSchemaParse at h
  split at h
  · split at h
    · exact absurd h (by simp)
    · split at h
      · exact absurd h (by simp)
      · split at h
        · exact absurd h (by simp)
        · split at h
          · exact absurd h (by simp)
          · cases h
            simp_all
            omega
  · exact absurd h (by simp)

/-! ## The claims -/

/-- Claim C2: every successful Document Store create call stores content
of length greater than zero; a save of empty or whitespace-only
simplified text is rejected on the client before any Store create request
is issued (the session is left untouched, with no create attempt), and
the server rejects an empty `content` with a 400 validation error. -/
theorem nonempty_content_invariant :
    ∀ (uid id ts : String) (b : DocumentBody) (doc : StoredDocument)
      (env : SaveEnv) (la : Bool) (s : CaptureSession),
    ((postDocuments uid id ts b).document = some doc →
       0 < doc.content.length)
    ∧ (b.content = some "" →
       (postDocuments uid id ts b).status = 400
       ∧ (postDocuments uid id ts b).document = none)
    ∧ (jsTrim s.easyRead = "" →
       pdfSaveEasyReadDocument env la s = s) := by
  intro uid id ts b doc env la s
  refine ⟨?_, ?_, ?_⟩
  · intro h
    unfold postDocuments at h
    cases hp : documentSchemaParse b with
    | ok p =>
      rw [hp] at h
      simp only [Option.some.injEq] at h
      have hlen : 0 < (createDocument uid id ts p).content.length :=
        (documentSchemaParse_ok hp).1
      exact h ▸ hlen
    | error e =>
      rw [hp] at h
      simp at h
  · intro hc
    have herr : ∃ e, documentSchemaParse b = .error e := by
      unfold documentSchemaParse
      rw [hc]
      cases b.title with
      | none => exact ⟨_, rfl⟩
      | some t =>
        cases b.type with
        | none => exact ⟨_, rfl⟩
        | some ty =>
          by_cases h1 : t.length < 1
          · simp [h1]
          · by_cases h2 : 500 < t.length
            · simp [h1, h2]
            · simp [h1, h2]
    rcases herr with ⟨e, he⟩
    simp [postDocuments, he]
  · intro ht
    unfold pdfSaveEasyReadDocument
    simp [ht]

/-- Witness for C2 at a concrete input: a create with one-character
content succeeds and stores positive-length content; an empty content is
rejected with 400; a whitespace-only session save is the identity. -/
theorem nonempty_content_invariant_witness :
    (0 < (createDocument "u1" "d1" "ts"
          { title := "T", content := "Hello", type := "pdf",
            sourceTag := none, fileName := none,
            fileUrl := none }).content.length)
    ∧ ((postDocuments "u1" "d1" "ts"
          { title := some "T", content := some "", type := some "pdf",
            sourceTag := none, fileName := none, fileUrl := none }).status
          = 400)
    ∧ pdfSaveEasyReadDocument { token := some "tok", storeOk := true } false
        { easyRead := "   ", easyHasSaved := false,
          leaveGuardVisible := false, navigatedBack := false,
          createAttempts := 0, storedDocs := 0, alert := none }
      = { easyRead := "   ", easyHasSaved := false,
          leaveGuardVisible := false, navigatedBack := false,
          createAttempts := 0, storedDocs := 0, alert := none } := by
  refine ⟨?_, ?_, ?_⟩
  · exact (nonempty_content_invariant "u1" "d1" "ts"
      { title := some "T", content := some "Hello", type := some "pdf",
        sourceTag := none, fileName := none, fileUrl := none }
      (createDocument "u1" "d1" "ts"
        { title := "T", content := "Hello", type := "pdf",
          sourceTag := none, fileName := none, fileUrl := none })
      { token := some "tok", storeOk := true } false
      { easyRead := "   ", easyHasSaved := false,
        leaveGuardVisible := false, navigatedBack := false,
        createAttempts := 0, storedDocs := 0, alert := none }).1 rfl
  · exact ((nonempty_content_invariant "u1" "d1" "ts"
      { title := some "T", content := some "", type := some "pdf",
        sourceTag := none, fileName := none, fileUrl := none }
      (createDocument "u1" "d1" "ts"
        { title := "T", content := "Hello", type := "pdf",
          sourceTag := none, fileName := none, fileUrl := none })
      { token := some "tok", storeOk := true } false
      { easyRead := "   ", easyHasSaved := false,
        leaveGuardVisible := false, navigatedBack := false,
        createAttempts := 0, storedDocs := 0, alert := none }).2.1 rfl).1
  · exact (nonempty_content_invariant "u1" "d1" "ts"
      { title := some "T", content := some "", type := some "pdf",
        sourceTag := none, fileName := none, fileUrl := none }
      (createDocument "u1" "d1" "ts"
        { title := "T", content := "Hello", type := "pdf",
          sourceTag := none, fileName := none, fileUrl := none })
      { token := some "tok", storeOk := true } false
      { easyRead := "   ", easyHasSaved := false,
        leaveGuardVisible := false, navigatedBack := false,
        createAttempts := 0, storedDocs := 0, alert := none }).2.2
      (by decide)

/-- Claim C3: a delete request for a document id authenticated as a user
who does not own a document with that id (another owner, or a nonexistent
id) answers 404 "Document not found" and removes nothing from the table;
a 200 delete happens only when the document exists and its `userId`
equals the requester. -/
theorem delete_ownership_isolation :
    ∀ (db : List StoredDocument) (uid docId : String),
    ((∀ d ∈ db, d.id = docId → d.userId ≠ uid) →
       (deleteDocumentsRoute db uid docId).1.status = 404
       ∧ (deleteDocumentsRoute db uid docId).1.message
           = some "Document not found"
       ∧ (deleteDocumentsRoute db uid docId).2 = db)
    ∧ ((deleteDocumentsRoute db uid docId).1.status = 200 →
       ∃ d ∈ db, d.id = docId ∧ d.userId = uid) := by
  intro db uid docId
  unfold deleteDocumentsRoute deleteDocumentForUser getDocumentById
  cases hfind : db.find? (fun d => d.id == docId) with
  | none => simp
  | some doc =>
    have hid : doc.id = docId := by
      have := List.find?_some hfind
      simpa using this
    have hmem : doc ∈ db := List.mem_of_find?_eq_some hfind
    by_cases hu : doc.userId = uid
    · simp only [hu, if_pos rfl]
      constructor
      · intro hall
        exact absurd hu (hall doc hmem hid)
      · intro _
        exact ⟨doc, hmem, hid, hu⟩
    · simp [hu]

/-- Witness for C3: in a two-document table, user u2 deleting u1's
document gets 404 and the table is unchanged. -/
theorem delete_ownership_isolation_witness :
    (deleteDocumentsRoute
        [{ id := "d1", userId := "u1", title := "T", content := "C",
           type := "pdf", sourceTag := none, fileName := none,
           fileUrl := none, createdAt := "ts" },
         { id := "d2", userId := "u2", title := "S", content := "D",
           type := "web", sourceTag := none, fileName := none,
           fileUrl := none, createdAt := "ts" }] "u2" "d1").1.status = 404
    ∧ (deleteDocumentsRoute
        [{ id := "d1", userId := "u1", title := "T", content := "C",
           type := "pdf", sourceTag := none, fileName := none,
           fileUrl := none, createdAt := "ts" },
         { id := "d2", userId := "u2", title := "S", content := "D",
           type := "web", sourceTag := none, fileName := none,
           fileUrl := none, createdAt := "ts" }] "u2" "d1").2
      = [{ id := "d1", userId := "u1", title := "T", content := "C",
           type := "pdf", sourceTag := none, fileName := none,
           fileUrl := none, createdAt := "ts" },
         { id := "d2", userId := "u2", title := "S", content := "D",
           type := "web", sourceTag := none, fileName := none,
           fileUrl := none, createdAt := "ts" }] := by
  have h := (delete_ownership_isolation
    [{ id := "d1", userId := "u1", title := "T", content := "C",
       type := "pdf", sourceTag := none, fileName := none,
       fileUrl := none, createdAt := "ts" },
     { id := "d2", userId := "u2", title := "S", content := "D",
       type := "web", sourceTag := none, fileName := none,
       fileUrl := none, createdAt := "ts" }] "u2" "d1").1 (by decide)
  exact ⟨h.1, h.2.2⟩

/-- Claim C10: the PDF-upload and URL-import save paths hand the rendered
PDF path to `createUserDocument` under the key `url`, but the client
forwards only a `fileUrl` key, so the body reaching the server carries no
`fileUrl` and the stored record has `fileUrl = NULL`, whatever the path
was. -/
theorem fileurl_dropped :
    ∀ (title text fileName dest uid id ts : String),
    jget (pdfUploadSavePayload title text fileName dest) "url" = some dest
    ∧ (createUserDocumentBody
        (pdfUploadSavePayload title text fileName dest)).fileUrl = none
    ∧ jget (urlImportSavePayload title text fileName dest) "url" = some dest
    ∧ (createUserDocumentBody
        (urlImportSavePayload title text fileName dest)).fileUrl = none
    ∧ (∀ doc, (postDocuments uid id ts (createUserDocumentBody
          (pdfUploadSavePayload title text fileName dest))).document
            = some doc → doc.fileUrl = none)
    ∧ (∀ doc, (postDocuments uid id ts (createUserDocumentBody
          (urlImportSavePayload title text fileName dest))).document
            = some doc → doc.fileUrl = none) := by
  intro title text fileName dest uid id ts
  refine ⟨rfl, rfl, rfl, rfl, ?_, ?_⟩
  · intro doc h
    unfold postDocuments at h
    cases hp : documentSchemaParse (createUserDocumentBody
        (pdfUploadSavePayload title text fileName dest)) with
    | ok p =>
      rw [hp] at h
      simp only [Option.some.injEq] at h
      have hfu : p.fileUrl = none := (documentSchemaParse_ok hp).2.2.2.2
      rw [← h]
      simp [createDocument, hfu, jsOrNull]
    | error e =>
      rw [hp] at h
      simp at h
  · intro doc h
    unfold postDocuments at h
    cases hp : documentSchemaParse (createUserDocumentBody
        (urlImportSavePayload title text fileName dest)) with
    | ok p =>
      rw [hp] at h
      simp only [Option.some.injEq] at h
      have hfu : p.fileUrl = none := (documentSchemaParse_ok hp).2.2.2.2
      rw [← h]
      simp [createDocument, hfu, jsOrNull]
    | error e =>
      rw [hp] at h
      simp at h

/-- Witness for C10: a concrete PDF-upload save stores a document whose
`fileUrl` is NULL even though a rendered-PDF path was passed. -/
theorem fileurl_dropped_witness :
    ∃ doc,
      (postDocuments "u1" "id1" "ts" (createUserDocumentBody
        (pdfUploadSavePayload "T" "Body" "f.pdf"
          "file:///cache/easy-read-upload-1.pdf"))).document = some doc
      ∧ doc.fileUrl = none := by
  have h := (fileurl_dropped "T" "Body" "f.pdf"
    "file:///cache/easy-read-upload-1.pdf" "u1" "id1" "ts").2.2.2.2.1
  exact ⟨_, rfl, h _ rfl⟩

/-- Claim C1: with an unsaved Easy Read result (`easyRead` nonempty,
`easyHasSaved = false`), a back-navigation attempt opens the leave guard
(which offers exactly two resolutions) instead of navigating, and stores
nothing; "leave without saving" navigates with zero document records
created; "save and leave" (when the save pipeline succeeds on a
nonempty trimmed result) stores exactly one document record, marks the
session saved, and only then navigates; when the save pipeline fails the
session stays on screen with nothing stored. Back navigation itself never
drops the unsaved result. -/
theorem unsaved_navigation_guard :
    ∀ (s : CameraSession),
    s.easyRead ≠ "" → s.easyHasSaved = false →
    ((cameraHandleBack s).leaveGuardVisible = true
     ∧ (cameraHandleBack s).navigatedBack = s.navigatedBack
     ∧ (cameraHandleBack s).localDocs = s.localDocs)
    ∧ leaveGuardOptions.length = 2
    ∧ ((cameraGuardLeaveWithoutSaving s).localDocs = s.localDocs
       ∧ (cameraGuardLeaveWithoutSaving s).navigatedBack = true)
    ∧ (jsTrim s.easyRead ≠ "" →
       (cameraGuardSaveAndLeave true s).localDocs = s.localDocs + 1
       ∧ (cameraGuardSaveAndLeave true s).easyHasSaved = true
       ∧ (cameraGuardSaveAndLeave true s).navigatedBack = true)
    ∧ ((cameraGuardSaveAndLeave false s).localDocs = s.localDocs
       ∧ (cameraGuardSaveAndLeave false s).navigatedBack
           = s.navigatedBack) := by
  intro s h1 h2
  refine ⟨?_, rfl, ?_, ?_, ?_⟩
  · unfold cameraHandleBack
    rw [if_pos ⟨h1, h2⟩]
    exact ⟨rfl, rfl, rfl⟩
  · exact ⟨rfl, rfl⟩
  · intro ht
    unfold cameraGuardSaveAndLeave cameraSaveEasyReadDocument
    rw [if_neg ht]
    exact ⟨rfl, rfl, rfl⟩
  · unfold cameraGuardSaveAndLeave cameraSaveEasyReadDocument
    by_cases ht : jsTrim s.easyRead = ""
    · rw [if_pos ht]
      exact ⟨rfl, rfl⟩
    · rw [if_neg ht]
      exact ⟨rfl, rfl⟩

/-- Witness for C1: the guard behavior at a concrete session holding the
unsaved simplified text "The huge building was opened." -/
theorem unsaved_navigation_guard_witness :
    (cameraHandleBack
      { easyRead := "The huge building was opened.", documentTitle := "Scan",
        easyHasSaved := false, leaveGuardVisible := false,
        navigatedBack := false, localDocs := 0,
        alert := none }).leaveGuardVisible = true
    ∧ (cameraGuardSaveAndLeave true
        { easyRead := "The huge building was opened.",
          documentTitle := "Scan", easyHasSaved := false,
          leaveGuardVisible := false, navigatedBack := false,
          localDocs := 0, alert := none }).localDocs = 0 + 1 := by
  have h := unsaved_navigation_guard
    { easyRead := "The huge building was opened.", documentTitle := "Scan",
      easyHasSaved := false, leaveGuardVisible := false,
      navigatedBack := false, localDocs := 0, alert := none }
    (by decide) rfl
  exact ⟨h.1.1, (h.2.2.2.1 (by decide)).1⟩

/-- Claim C4: once a session's Easy Read result has been saved
(`easyHasSaved = true`), the save control is disabled, labelled with the
already-saved indicator, and pressing it changes nothing — in particular
no additional document record is created. -/
theorem idempotent_save_flag :
    ∀ (s : CaptureSession) (env : SaveEnv),
    s.easyHasSaved = true →
    saveDisabled s = true
    ∧ saveButtonLabel s = "Saved"
    ∧ pressSaveButton env s = s
    ∧ (pressSaveButton env s).storedDocs = s.storedDocs
    ∧ (pressSaveButton env s).createAttempts = s.createAttempts := by
  intro s env h
  have hd : saveDisabled s = true := by
    unfold saveDisabled
    rw [h]
    simp
  refine ⟨hd, ?_, ?_, ?_, ?_⟩
  · unfold saveButtonLabel
    rw [if_pos h]
  · unfold pressSaveButton
    rw [if_pos hd]
  · unfold pressSaveButton
    rw [if_pos hd]
  · unfold pressSaveButton
    rw [if_pos hd]

/-- Witness for C4: a concrete already-saved session ignores a second
save press. -/
theorem idempotent_save_flag_witness :
    saveButtonLabel
      { easyRead := "Easy words.", easyHasSaved := true,
        leaveGuardVisible := false, navigatedBack := false,
        createAttempts := 1, storedDocs := 1, alert := none } = "Saved"
    ∧ pressSaveButton { token := some "tok", storeOk := true }
        { easyRead := "Easy words.", easyHasSaved := true,
          leaveGuardVisible := false, navigatedBack := false,
          createAttempts := 1, storedDocs := 1, alert := none }
      = { easyRead := "Easy words.", easyHasSaved := true,
          leaveGuardVisible := false, navigatedBack := false,
          createAttempts := 1, storedDocs := 1, alert := none } := by
  have h := idempotent_save_flag
    { easyRead := "Easy words.", easyHasSaved := true,
      leaveGuardVisible := false, navigatedBack := false,
      createAttempts := 1, storedDocs := 1, alert := none }
    { token := some "tok", storeOk := true } rfl
  exact ⟨h.2.1, h.2.2.1⟩

/-- Claim C5 counterexample: the camera/scan save path consults no auth
token at all — `cameraSaveEasyReadDocument` persists the Easy Read
record to device storage directly. At this concrete session, with no
token in existence, the save succeeds (one record written, session
marked saved) and surfaces no "not signed in" failure, contradicting the
claim that every capture flow's save path requires a bearer token and
surfaces "not signed in" without one. -/
theorem token_precondition_counterexample :
    (cameraSaveEasyReadDocument true false
      { easyRead := "Easy words.", documentTitle := "Scan",
        easyHasSaved := false, leaveGuardVisible := false,
        navigatedBack := false, localDocs := 0, alert := none }).localDocs
      = 1
    ∧ (cameraSaveEasyReadDocument true false
      { easyRead := "Easy words.", documentTitle := "Scan",
        easyHasSaved := false, leaveGuardVisible := false,
        navigatedBack := false, localDocs := 0, alert := none }).alert
      = none
    ∧ (cameraSaveEasyReadDocument true false
      { easyRead := "Easy words.", documentTitle := "Scan",
        easyHasSaved := false, leaveGuardVisible := false,
        navigatedBack := false, localDocs := 0, alert := none }).easyHasSaved
      = true := by
  refine ⟨?_, ?_, ?_⟩ <;> decide

/-- Claim C5 (amended): for the PDF-upload and URL-import save paths and
for the document list and delete operations, a missing bearer token is a
hard precondition failure — the save surfaces "Not signed in" and never
issues the Store create call, the list renders empty without fetching,
and the delete alerts without calling the Store; the camera/scan save
path, by contrast, persists locally on the device and performs no token
check (see the counterexample). -/
theorem token_precondition_amended :
    ∀ (env : SaveEnv) (la : Bool) (s : CaptureSession)
      (fetched : List StoredDocument) (serverOk : Bool)
      (docs : List ClientDocument) (target : String),
    env.token = none →
    (jsTrim s.easyRead ≠ "" →
       (pdfSaveEasyReadDocument env la s).alert = some "Not signed in"
       ∧ (pdfSaveEasyReadDocument env la s).createAttempts
           = s.createAttempts
       ∧ (pdfSaveEasyReadDocument env la s).storedDocs = s.storedDocs
       ∧ (pdfSaveEasyReadDocument env la s).navigatedBack
           = s.navigatedBack)
    ∧ loadDocuments none fetched = ([], false)
    ∧ (performDelete none serverOk docs target).1 = docs
    ∧ (performDelete none serverOk docs target).2.1 = false := by
  intro env la s fetched serverOk docs target htok
  refine ⟨?_, rfl, rfl, rfl⟩
  intro ht
  unfold pdfSaveEasyReadDocument
  rw [if_neg ht, htok]
  exact ⟨rfl, rfl, rfl, rfl⟩

/-- Witness for the amended C5: a concrete token-less PDF-upload save
surfaces "Not signed in" and issues no Store call. -/
theorem token_precondition_amended_witness :
    (pdfSaveEasyReadDocument { token := none, storeOk := true } false
      { easyRead := "Easy words.", easyHasSaved := false,
        leaveGuardVisible := false, navigatedBack := false,
        createAttempts := 0, storedDocs := 0, alert := none }).alert
      = some "Not signed in"
    ∧ (pdfSaveEasyReadDocument { token := none, storeOk := true } false
      { easyRead := "Easy words.", easyHasSaved := false,
        leaveGuardVisible := false, navigatedBack := false,
        createAttempts := 0, storedDocs := 0,
        alert := none }).createAttempts = 0 := by
  have h := (token_precondition_amended
    { token := none, storeOk := true } false
    { easyRead := "Easy words.", easyHasSaved := false,
      leaveGuardVisible := false, navigatedBack := false,
      createAttempts := 0, storedDocs := 0, alert := none }
    [] true [] "d1" rfl).1 (by decide)
  exact ⟨h.1, h.2.1⟩

/-- Claim C6 counterexample: at the caller of `simplify`
(`rewriteEasyRead` in api.js), an upstream HTTP error and a network
failure produce the identical generic error — the inner status-carrying
throw is swallowed by the same catch — so "service failed" is not
distinguishable from "network unreachable"; and a response that parses
but carries no usable text comes back as an empty-string success, not as
a "malformed response" error. -/
theorem simplifier_failure_modes_counterexample :
    rewriteEasyRead (.response (aiRewriteRoute
        "The colossal edifice was inaugurated." (.httpError 500 "overloaded")))
      = rewriteEasyRead .networkError
    ∧ rewriteEasyRead (.response (aiRewriteRoute
        "The colossal edifice was inaugurated." (.ok none)))
      = .ok "" := by
  exact ⟨rfl, rfl⟩

/-- Claim C6 (amended): the backend route does surface an upstream
non-2xx as a distinct 502 carrying "AI service failed (status)" plus the
upstream detail, and a parseable upstream response always yields 200 —
but a usable-text-free 200 carries `easyRead = ""` as a success, and the
client collapses both the 502 and a network failure into one generic
"Failed to reach the AI service" error, so the three failure modes are
not distinguishable at the caller and no-usable-text is an empty-string
success. -/
theorem simplifier_failure_modes_amended :
    ∀ (sentence detail : String) (st : Nat) (c : Option String),
    1 ≤ sentence.length → sentence.length ≤ 15000000 →
    aiRewriteRoute sentence (.httpError st detail)
      = { status := 502,
          error := some ("AI service failed (" ++ toString st ++ ")"),
          detail := some detail, easyRead := none }
    ∧ (aiRewriteRoute sentence (.ok c)).status = 200
    ∧ rewriteEasyRead (.response (aiRewriteRoute sentence
        (.httpError st detail)))
      = .error "Failed to reach the AI service. Please try again."
    ∧ rewriteEasyRead .networkError
      = .error "Failed to reach the AI service. Please try again."
    ∧ (aiRewriteRoute sentence (.ok none)).easyRead = some ""
    ∧ rewriteEasyRead (.response (aiRewriteRoute sentence (.ok none)))
      = .ok "" := by
  intro sentence detail st c h1 h2
  have hn1 : ¬ sentence.length < 1 := by omega
  have hn2 : ¬ 15000000 < sentence.length := by omega
  have hroute : aiRewriteRoute sentence (.httpError st detail)
      = { status := 502,
          error := some ("AI service failed (" ++ toString st ++ ")"),
          detail := some detail, easyRead := none } := by
    unfold aiRewriteRoute
    rw [if_neg hn1, if_neg hn2]
  have hok : aiRewriteRoute sentence (.ok c)
      = { status := 200, error := none, detail := none,
          easyRead := some ((c.map jsTrim).getD "") } := by
    unfold aiRewriteRoute
    rw [if_neg hn1, if_neg hn2]
  have hoknone : aiRewriteRoute sentence (.ok none)
      = { status := 200, error := none, detail := none,
          easyRead := some "" } := by
    unfold aiRewriteRoute
    rw [if_neg hn1, if_neg hn2]
    rfl
  refine ⟨hroute, ?_, ?_, rfl, ?_, ?_⟩
  · rw [hok]
  · rw [hroute]
    simp [rewriteEasyRead]
  · rw [hoknone]
  · rw [hoknone]
    simp [rewriteEasyRead]

/-- Witness for the amended C6 at a concrete sentence, status and
detail. -/
theorem simplifier_failure_modes_amended_witness :
    aiRewriteRoute "Hello there." (.httpError 503 "busy")
      = { status := 502, error := some ("AI service failed (503)"),
          detail := some "busy", easyRead := none }
    ∧ rewriteEasyRead (.response (aiRewriteRoute "Hello there."
        (.ok none))) = .ok "" := by
  have h := simplifier_failure_modes_amended "Hello there." "busy" 503
    (some "ignored") (by decide) (by decide)
  exact ⟨h.1, h.2.2.2.2.2⟩

/-- Unfolding: the loop stops when the result is long enough or both
retries are spent, surfacing the current result. -/
lemma extractionLoop_stop {results : Nat → String} {i rc : Nat}
    (h : ¬((results i).length < 100 ∧ rc < 2)) :
    extractionLoop results i rc = (1, results i) := by
  unfold extractionLoop
  rw [dif_neg h]

/-- Unfolding: a short result with a retry left re-runs the extraction
once more with the counter incremented. -/
lemma extractionLoop_step {results : Nat → String} {i rc : Nat}
    (h1 : (results i).length < 100) (h2 : rc < 2) :
    extractionLoop results i rc
      = ((extractionLoop results (i + 1) (rc + 1)).1 + 1,
         (extractionLoop results (i + 1) (rc + 1)).2) := by
  conv_lhs => rw [extractionLoop]
  rw [dif_pos ⟨h1, h2⟩]

/-- Claim C7: URL extraction re-runs once more (after the fixed delay)
exactly when the result is shorter than 100 characters and fewer than 2
retries have run; a session therefore performs at most 3 runs (2
retries), and when every run comes back short it performs exactly 3 runs
and surfaces the final short result instead of retrying further. -/
theorem url_import_retry_bound :
    ∀ (results : Nat → String),
    (urlExtraction results).1 ≤ 3
    ∧ ((∀ i, (results i).length < 100) →
         urlExtraction results = (3, results 2))
    ∧ (∀ (s : UrlState) (text pt hn : String),
         text.length < 100 → s.retryCount < 2 →
         (urlOnMessageOk s text pt hn).2 = true
         ∧ (urlOnMessageOk s text pt hn).1.retryCount = s.retryCount + 1)
    ∧ (∀ (s : UrlState) (text pt hn : String),
         ¬(text.length < 100 ∧ s.retryCount < 2) →
         (urlOnMessageOk s text pt hn).2 = false
         ∧ (urlOnMessageOk s text pt hn).1.extracted = text
         ∧ (urlOnMessageOk s text pt hn).1.retryCount = 0) := by
  intro results
  refine ⟨?_, ?_, ?_, ?_⟩
  · unfold urlExtraction
    by_cases h0 : (results 0).length < 100
    · rw [extractionLoop_step h0 (by omega)]
      by_cases h1 : (results 1).length < 100
      · rw [extractionLoop_step h1 (by omega)]
        rw [extractionLoop_stop (fun h => absurd h.2 (by omega))]
      · rw [extractionLoop_stop (fun h => h1 h.1)]
        simp
    · rw [extractionLoop_stop (fun h => h0 h.1)]
      simp
  · intro h
    unfold urlExtraction
    rw [extractionLoop_step (h 0) (by omega),
        extractionLoop_step (h 1) (by omega),
        extractionLoop_stop (fun hh => absurd hh.2 (by omega))]
  · intro s text pt hn ht hrc
    unfold urlOnMessageOk
    rw [if_pos ⟨ht, hrc⟩]
    exact ⟨rfl, rfl⟩
  · intro s text pt hn h
    unfold urlOnMessageOk
    rw [if_neg h]
    exact ⟨rfl, rfl, rfl⟩

/-- Witness for C7: when every extraction run of a session yields the
5-character text "short", the session performs exactly 3 runs and
surfaces "short". -/
theorem url_import_retry_bound_witness :
    urlExtraction (fun _ => "short") = (3, "short")
    ∧ (urlOnMessageOk
        { extracted := "", documentTitle := "", retryCount := 0,
          loading := false } "short" "Title" "host").2 = true := by
  have h := url_import_retry_bound (fun _ => "short")
  exact ⟨h.2.1 (fun i => by decide),
         (h.2.2.1 { extracted := "", documentTitle := "", retryCount := 0,
                    loading := false } "short" "Title" "host"
            (by decide) (by decide)).1⟩

/-- Claim C8 counterexample: the title embedding escapes only the opening
angle bracket, so in the concrete title "1 > 2 & 3" both the ampersand
and the closing angle bracket reach the intermediate HTML unescaped —
the claim that all three markup characters are escaped in the title is
false. -/
theorem markup_escaping_counterexample :
    escapeTitle "1 > 2 & 3".toList = "1 > 2 & 3".toList
    ∧ '>' ∈ escapeTitle "1 > 2 & 3".toList
    ∧ '&' ∈ escapeTitle "1 > 2 & 3".toList := by
  refine ⟨?_, ?_, ?_⟩ <;> decide

/-- Claim C8 (amended): in the body text, all three markup characters
are escaped — after `safeHtml` (and after `escapeHtml` used by the
regeneration path) no raw angle bracket of the input survives (for
`safeHtml`, on newline-free input, since newlines intentionally become
break tags); in the title, however, only the opening angle bracket is
escaped: a title without one passes through `escapeTitle` completely
unchanged, ampersands and closing angle brackets included. -/
theorem markup_escaping_amended :
    ∀ (text title : List Char),
    ('\n' ∉ text →
       ('<' ∉ safeHtml text ∧ '>' ∉ safeHtml text))
    ∧ ('<' ∉ escapeHtml text ∧ '>' ∉ escapeHtml text)
    ∧ '<' ∉ escapeTitle title
    ∧ ('<' ∉ title → escapeTitle title = title) := by
  intro text title
  have hlt : '<' ∉ escapeHtml text := by
    intro hmem
    unfold escapeHtml at hmem
    rcases mem_replaceAllChar hmem with h | h
    · exact absurd h (by decide)
    · exact not_mem_replaceAllChar (by decide) h
  have hgt : '>' ∉ escapeHtml text :=
    fun hmem => not_mem_replaceAllChar (by decide) hmem
  refine ⟨?_, ⟨hlt, hgt⟩, ?_, ?_⟩
  · intro hnl
    have hnl3 : '\n' ∉ escapeHtml text := by
      intro hmem
      unfold escapeHtml at hmem
      rcases mem_replaceAllChar hmem with h | h
      · exact absurd h (by decide)
      · rcases mem_replaceAllChar h with h2 | h2
        · exact absurd h2 (by decide)
        · rcases mem_replaceAllChar h2 with h3 | h3
          · exact absurd h3 (by decide)
          · exact hnl h3
    rw [safeHtml_eq, replaceAllChar_eq_of_not_mem hnl3]
    exact ⟨hlt, hgt⟩
  · exact fun hmem => not_mem_replaceAllChar (by decide) hmem
  · intro h
    exact replaceAllChar_eq_of_not_mem h

/-- Witness for the amended C8 at concrete body text and title: the body
"a & b < c > d" is rendered free of raw angle brackets, and the title
"A & B > C" passes through unchanged. -/
theorem markup_escaping_amended_witness :
    ('<' ∉ safeHtml "a & b < c > d".toList
     ∧ '>' ∉ safeHtml "a & b < c > d".toList)
    ∧ escapeTitle "A & B > C".toList = "A & B > C".toList := by
  have h := markup_escaping_amended "a & b < c > d".toList "A & B > C".toList
  exact ⟨h.1 (by decide), h.2.2.2 (by decide)⟩

/-- Claim C9: opening a stored document of type `pdf` whose `fileUrl`
does not resolve on this device (the existence check fails for every
path, covering both an absent and a stale path) regenerates a fresh PDF
artifact from the document content and the current reader text style
(font size, derived pixel line height, text alignment) and opens it —
it does not fail — provided the stored content is nonempty, which the
store guarantees at creation. -/
theorem cross_device_render_fallback :
    ∀ (fileExists : String → Bool) (render : String → String)
      (st : ReaderTextStyle) (doc : ClientDocument),
    doc.type = "pdf" →
    (∀ p, fileExists p = false) →
    doc.content ≠ "" →
    isPdfDoc doc = true
    ∧ openPdfFromDoc fileExists render st doc
        = .opened (render (regenHtml doc.content st)) doc.title := by
  intro fileExists render st doc htype hfe hcontent
  constructor
  · unfold isPdfDoc
    rw [htype]
    simp
  · unfold openPdfFromDoc
    cases hfu : doc.fileUrl with
    | none => simp [hcontent]
    | some p => simp [hfe p, hcontent]

/-- Witness for C9 at a concrete stored document whose `fileUrl` points
at a path that exists on no device. -/
theorem cross_device_render_fallback_witness :
    openPdfFromDoc (fun _ => false) (fun _ => "regen.pdf")
      (readerTextStyle { fontSize := 16, lineHeight := "Normal",
                         textAlignment := "Left" })
      { id := "d1", title := "T", content := "Easy words.", type := "pdf",
        date := "ts", fileName := some "f.pdf", sourceTag := some "upload",
        fileUrl := some "file:///old-device/f.pdf" }
      = .opened "regen.pdf" "T" := by
  have h := (cross_device_render_fallback (fun _ => false)
    (fun _ => "regen.pdf")
    (readerTextStyle { fontSize := 16, lineHeight := "Normal",
                       textAlignment := "Left" })
    { id := "d1", title := "T", content := "Easy words.", type := "pdf",
      date := "ts", fileName := some "f.pdf", sourceTag := some "upload",
      fileUrl := some "file:///old-device/f.pdf" }
    rfl (fun _ => rfl) (by decide)).2
  exact h
